import Mathlib

/-!
Verification of the SnowRetail internal-inquiry chatbot orchestration
(source: sis_snowretail_rag_mvp.py).

The file shallowly embeds the pure orchestration logic of the two chat
surfaces: the facet-filter builder, the search-hit / canonical-document
assembly (dedup by first occurrence), the context and prompt string
construction, the conversation-state updates, and the error/fallback
control flow of the RAG pipeline.  External services (the Cortex search
service, the SQL store, the COMPLETE generation call) are modelled as
oracle functions returning `Except`, mirroring the Python try/except
structure: an `Except.error` models the call raising.
-/

namespace SnowRetail

/-- Search filter expression tree, mirroring the JSON shapes
`@eq` over a field/value pair, `@or` over children, `@and` over children
built in lines 220-251 of the source. -/
inductive SearchFilter where
  | eq (field value : String)
  | or (children : List SearchFilter)
  | and (children : List SearchFilter)

/-- Conditions contributed by one facet (source lines 224-243): an empty
selection contributes nothing; one selected value contributes the single
equals condition; several contribute one or-wrapped condition. -/
def facetConditions (field : String) (selected : List String) : List SearchFilter :=
  if selected.isEmpty then []
  else
    let conds := selected.map (fun v => SearchFilter.eq field v)
    if conds.length = 1 then conds else [SearchFilter.or conds]

/-- The accumulated `filter_conditions` list (source lines 221-243). -/
def filter_conditions (selected_departments selected_document_types : List String) :
    List SearchFilter :=
  facetConditions "department" selected_departments ++
    facetConditions "document_type" selected_document_types

/-- Final filter assembly (source lines 246-251): absent when no facet
contributed, the lone condition when one contributed, and-wrapped otherwise. -/
def buildSearchFilter (selected_departments selected_document_types : List String) :
    Option SearchFilter :=
  match filter_conditions selected_departments selected_document_types with
  | [] => none
  | [c] => some c
  | cs => some (SearchFilter.and cs)

/-- The predicate a nonempty facet selection contributes, as the spec words
it: a single equals for one value, an or of equals for several. -/
def facetPredicate (field : String) (selected : List String) : SearchFilter :=
  match selected with
  | [v] => SearchFilter.eq field v
  | vs => SearchFilter.or (vs.map (fun v => SearchFilter.eq field v))

/-- One search hit, carrying the projected columns requested from the
search service (source lines 263-267). -/
structure SearchResult where
  title : String
  chunked_content : String
  document_type : String
  department : String
  document_id : String
deriving DecidableEq, Repr

/-- One canonical document record as indexed by identifier in
`original_docs` (source lines 289-298). -/
structure OriginalDoc where
  title : String
  content : String
  document_type : String
  department : String
deriving DecidableEq, Repr

/-- One entry of `relevant_docs` (source lines 311-317): canonical
title/content/type/department joined with the hit's chunk text. -/
structure RelevantDoc where
  title : String
  content : String
  chunked_content : String
  document_type : String
  department : String
deriving DecidableEq, Repr

/-- The dictionary appended for one hit (source lines 311-317). -/
def mkRelevantDoc (d : OriginalDoc) (r : SearchResult) : RelevantDoc :=
  { title := d.title, content := d.content, chunked_content := r.chunked_content,
    document_type := d.document_type, department := d.department }

/-- The assembly loop over search results (source lines 301-318), with the
`seen_doc_ids` set made explicit.  Each emitted entry is paired with the
document identifier it was emitted for (the loop variable `doc_id`). -/
def assembleAux (original_docs : String → Option OriginalDoc) :
    List SearchResult → List String → List (String × RelevantDoc)
  | [], _ => []
  | r :: rest, seen_doc_ids =>
    if r.document_id ∈ seen_doc_ids then
      assembleAux original_docs rest seen_doc_ids
    else
      match original_docs r.document_id with
      | some d =>
          (r.document_id, mkRelevantDoc d r) ::
            assembleAux original_docs rest (r.document_id :: seen_doc_ids)
      | none => assembleAux original_docs rest seen_doc_ids

/-- `relevant_docs` assembly starting from an empty `seen_doc_ids`. -/
def assembleRelevantDocs (results : List SearchResult)
    (original_docs : String → Option OriginalDoc) : List (String × RelevantDoc) :=
  assembleAux original_docs results []

/-- First-occurrence deduplication, the spec's description of the emitted
identifier order (an accumulator of already-seen identifiers). -/
def dedupFirstAux : List String → List String → List String
  | _, [] => []
  | seen, x :: xs =>
    if x ∈ seen then dedupFirstAux seen xs else x :: dedupFirstAux (x :: seen) xs

/-- First-occurrence deduplication of a list of identifiers. -/
def dedupFirst (xs : List String) : List String :=
  dedupFirstAux [] xs

/-- The labeled context block for given title, type, department and chunk
text — the f-string of source lines 323-329, whitespace included.  Note it
takes no full-content argument. -/
def docBlockOf (title document_type department chunked_content : String) : String :=
  "\n                    タイトル: " ++ title ++
    "\n                    種類: " ++ document_type ++
    "\n                    部署: " ++ department ++
    "\n                    内容: " ++ chunked_content ++
    "\n                    ---\n                    "

/-- The context block appended for one relevant document (source lines
322-329): it embeds the chunk content, never the full content. -/
def docBlock (doc : RelevantDoc) : String :=
  docBlockOf doc.title doc.document_type doc.department doc.chunked_content

/-- The context accumulation loop (source lines 321-329). -/
def contextOf (docs : List RelevantDoc) : String :=
  docs.foldl (fun acc doc => acc ++ docBlock doc) "参考文書:\n"

/-- Concatenation of the per-document blocks in order. -/
def concatBlocks : List RelevantDoc → String
  | [] => ""
  | doc :: docs => docBlock doc ++ concatBlocks docs

/-- The fixed grounding instruction of the RAG prompt (source lines
332-338), up to and including the indentation before the spliced context. -/
def groundingInstruction : String :=
  "\n                あなたはスノーリテールの社内アシスタントです。\n                以下の文脈を参考に、ユーザーからの質問に日本語で回答してください。\n                わからない場合は、その旨を正直に伝えてください。\n\n                文脈:\n                "

/-- The text between the spliced context and the spliced question in the
RAG prompt (source lines 338-340). -/
def questionLabel : String := "\n\n                質問: "

/-- The trailing indentation after the spliced question (source line 341). -/
def closingIndent : String := "\n                "

/-- The grounded prompt (source lines 332-341): fixed instruction, the
assembled context, the literal user question. -/
def prompt_template (context prompt : String) : String :=
  groundingInstruction ++ context ++ questionLabel ++ prompt ++ closingIndent

/-- The fixed fallback instruction prompt (source line 370): note that the
documents are unavailable, then the raw user question, no context blocks. -/
def fallbackPrompt (prompt : String) : String :=
  "以下の質問に日本語で回答してください。社内文書にアクセスできないため、一般的な知識に基づいて回答します。\n\n質問: " ++ prompt

/-- The canonical-document lookup query (source lines 282-286), whitespace
included; each identifier is single-quoted and the list is comma-joined. -/
def original_docs_query (unique_document_ids : List String) : String :=
  "\n                    SELECT document_id, title, content, document_type, department\n                    FROM snow_retail_documents\n                    WHERE document_id IN (" ++
    String.intercalate ","
      (unique_document_ids.map (fun doc_id => "\x27" ++ doc_id ++ "\x27")) ++
    ")\n                "

/-- The error text shown when the inner RAG block raises (source line 366). -/
def searchAccessError : String :=
  "Cortex Search Serviceにアクセスできません。ワークショップでCortex Search Serviceが作成されていることを確認してください。"

/-- The error text shown by the outer handler and by the plain-chat
handler (source lines 110 and 384). -/
def generationErrorText (e : String) : String :=
  "応答の生成中にエラーが発生しました: " ++ e

/-- The ungrounded-answer notice shown on the fallback path (source line 374). -/
def fallbackNoticeText : String :=
  "注: Cortex Search Serviceにアクセスできないため、一般的な知識に基づく回答を生成しています。"

/-- The non-blocking warning shown when facet listing fails (source line 156). -/
def facetWarningText : String :=
  "部署とドキュメントタイプの取得に失敗しました。フィルター機能は使用できません。"

/-- One row of the canonical-document lookup result (source lines 292-298). -/
structure DocRow where
  document_id : String
  title : String
  content : String
  document_type : String
  department : String
deriving DecidableEq, Repr

/-- The `original_docs` dictionary built from the lookup rows (source
lines 289-298): assignment in row order, so a later row with the same
identifier overwrites an earlier one. -/
def rowsToDocs (rows : List DocRow) (doc_id : String) : Option OriginalDoc :=
  match rows.reverse.find? (fun row => row.document_id == doc_id) with
  | some row =>
      some { title := row.title, content := row.content,
             document_type := row.document_type, department := row.department }
  | none => none

/-- One stored conversation turn: role, text content, and the optional
`relevant_docs` key (present only on grounded RAG assistant turns). -/
structure ChatMessage where
  role : String
  content : String
  relevant_docs : Option (List RelevantDoc)
deriving DecidableEq, Repr

/-- One surface's conversation store: the message list and the derived
running-history text used for prompting. -/
structure ChatState where
  messages : List ChatMessage
  chat_history : String
deriving DecidableEq, Repr

/-- Appending the user turn (source lines 93-94 and 206-207). -/
def appendUserTurn (s : ChatState) (prompt : String) : ChatState :=
  { messages := s.messages ++ [{ role := "user", content := prompt, relevant_docs := none }],
    chat_history := s.chat_history ++ "User: " ++ prompt ++ "\n" }

/-- Appending an assistant turn with optional relevant docs (source lines
104-105, 358-363, 377-381). -/
def appendAssistantTurn (s : ChatState) (response : String)
    (docs : Option (List RelevantDoc)) : ChatState :=
  { messages := s.messages ++
      [{ role := "assistant", content := response, relevant_docs := docs }],
    chat_history := s.chat_history ++ "AI: " ++ response ++ "\n" }

/-- The external calls of the RAG pipeline, as oracles.  `search` receives
the query text and the built filter (the projection columns and the limit
of 3 are fixed in the source and not modelled); `runQuery` receives the
SQL text; `complete` receives the prompt passed to the COMPLETE call.  An
`Except.error` models the call raising. -/
structure RagEnv where
  search : String → Option SearchFilter → Except String (List SearchResult)
  runQuery : String → Except String (List DocRow)
  complete : String → Except String String

/-- The observable outcome of processing one RAG user input: the updated
conversation state, the prompts passed to COMPLETE in order, the error
texts surfaced to the user in order, and whether the ungrounded-answer
notice was shown. -/
structure RagOutcome where
  state : ChatState
  completePrompts : List String
  shownErrors : List String
  fallbackNotice : Bool
deriving DecidableEq, Repr

/-- The fallback handler (source lines 365-381): surface the access error
and the raised detail, then generate from the fallback prompt; on success
append an assistant turn without a `relevant_docs` key and show the
ungrounded notice; if the fallback generation itself raises, the outer
handler (lines 383-385) surfaces the generation error and appends nothing. -/
def ragFallback (env : RagEnv) (prompt : String) (s1 : ChatState)
    (priorPrompts : List String) (searchError : String) : RagOutcome :=
  match env.complete (fallbackPrompt prompt) with
  | Except.error e2 =>
      { state := s1,
        completePrompts := priorPrompts ++ [fallbackPrompt prompt],
        shownErrors := [searchAccessError, searchError, generationErrorText e2, e2],
        fallbackNotice := false }
  | Except.ok fallback_response =>
      { state := appendAssistantTurn s1 fallback_response none,
        completePrompts := priorPrompts ++ [fallbackPrompt prompt],
        shownErrors := [searchAccessError, searchError],
        fallbackNotice := true }

/-- Processing one user input on the RAG surface (source lines 204-385).
The user turn is appended first; then the inner block runs search, the
canonical lookup, assembly and grounded generation; any raise inside the
inner block is caught by the fallback handler.  `list(set(document_ids))`
is modelled as first-occurrence dedup: Python's set iteration order is
unspecified and only affects the textual order inside the IN list. -/
def ragProcessPrompt (env : RagEnv)
    (selected_departments selected_document_types : List String)
    (prompt : String) (s : ChatState) : RagOutcome :=
  let s1 := appendUserTurn s prompt
  let search_filter := buildSearchFilter selected_departments selected_document_types
  match env.search prompt search_filter with
  | Except.error e => ragFallback env prompt s1 [] e
  | Except.ok results =>
    let unique_document_ids := (results.map (fun r => r.document_id)).eraseDups
    match env.runQuery (original_docs_query unique_document_ids) with
    | Except.error e => ragFallback env prompt s1 [] e
    | Except.ok rows =>
      let original_docs := rowsToDocs rows
      let relevant_docs := (assembleRelevantDocs results original_docs).map Prod.snd
      let context := contextOf relevant_docs
      let p := prompt_template context prompt
      match env.complete p with
      | Except.error e => ragFallback env prompt s1 [p] e
      | Except.ok response =>
        { state := appendAssistantTurn s1 response (some relevant_docs),
          completePrompts := [p],
          shownErrors := [],
          fallbackNotice := false }

/-- The observable outcome of processing one plain-chat user input. -/
structure SimpleOutcome where
  state : ChatState
  shownErrors : List String
deriving DecidableEq, Repr

/-- Processing one user input on the plain-chat surface (source lines
91-110): append the user turn, prompt COMPLETE with the running history
plus the trailing AI cue; on success append the assistant turn, on a raise
surface the generation error and append nothing. -/
def simpleProcessPrompt (complete : String → Except String String)
    (prompt : String) (s : ChatState) : SimpleOutcome :=
  let s1 := appendUserTurn s prompt
  match complete (s1.chat_history ++ "AI: ") with
  | Except.error e => { state := s1, shownErrors := [generationErrorText e] }
  | Except.ok response =>
      { state := appendAssistantTurn s1 response none, shownErrors := [] }

/-- The per-session state: the two independent conversation surfaces
(source session keys messages/chat_history and rag_messages/rag_chat_history). -/
structure SessionState where
  simple : ChatState
  rag : ChatState
deriving DecidableEq, Repr

/-- The plain surface's clear action (source lines 80-83). -/
def clearSimpleHistory (s : SessionState) : SessionState :=
  { s with simple := { messages := [], chat_history := "" } }

/-- The RAG surface's clear action (source lines 184-187). -/
def clearRagHistory (s : SessionState) : SessionState :=
  { s with rag := { messages := [], chat_history := "" } }

/-- The facet catalog loading block (source lines 143-158): both distinct
listing queries run inside one try; on any raise both lists become empty
and the non-blocking warning is shown.  Returns (department_list,
document_type_list, warned). -/
def loadFacetLists (deptQuery typeQuery : Except String (List String)) :
    List String × List String × Bool :=
  match deptQuery with
  | Except.error _ => ([], [], true)
  | Except.ok department_list =>
    match typeQuery with
    | Except.error _ => ([], [], true)
    | Except.ok document_type_list => (department_list, document_type_list, false)

/-- Example hits for the spec's dedup scenario: identifiers 1, 2, 1 with
chunks a, b, c. -/
def exampleHits : List SearchResult :=
  [{ title := "T1", chunked_content := "a", document_type := "t",
     department := "d", document_id := "1" },
   { title := "T2", chunked_content := "b", document_type := "t",
     department := "d", document_id := "2" },
   { title := "T1", chunked_content := "c", document_type := "t",
     department := "d", document_id := "1" }]

/-- Example resolved mapping: identifiers 1 and 2 resolve. -/
def exampleDocs : String → Option OriginalDoc := fun id =>
  if id = "1" then some { title := "T1", content := "C1", document_type := "t", department := "d" }
  else if id = "2" then some { title := "T2", content := "C2", document_type := "t", department := "d" }
  else none

/-- Example lookup rows matching `exampleDocs`. -/
def exampleRows : List DocRow :=
  [{ document_id := "1", title := "T1", content := "C1", document_type := "t", department := "d" },
   { document_id := "2", title := "T2", content := "C2", document_type := "t", department := "d" }]

/-- A single hit whose identifier does not resolve. -/
def exampleHit9 : SearchResult :=
  { title := "T9", chunked_content := "x", document_type := "t",
    department := "d", document_id := "9" }

/-- A resolved mapping with no entries. -/
def noDocs : String → Option OriginalDoc := fun _ => none

/-- Environment in which every external call succeeds. -/
def envAllOk : RagEnv :=
  { search := fun _ _ => Except.ok exampleHits,
    runQuery := fun _ => Except.ok exampleRows,
    complete := fun _ => Except.ok "ok-response" }

/-- Environment in which search and lookup succeed but the grounded
generation call raises; the fallback generation succeeds. -/
def envGroundedFails : RagEnv :=
  { search := fun _ _ => Except.ok exampleHits,
    runQuery := fun _ => Except.ok exampleRows,
    complete := fun p =>
      if p = fallbackPrompt "q" then Except.ok "fallback-resp"
      else Except.error "gen-down" }

/-- Environment in which the search call raises and generation succeeds. -/
def envSearchFails : RagEnv :=
  { search := fun _ _ => Except.error "search-down",
    runQuery := fun _ => Except.ok [],
    complete := fun _ => Except.ok "fallback-resp" }

/-- Environment in which every external call raises. -/
def envAllDown : RagEnv :=
  { search := fun _ _ => Except.error "search-down",
    runQuery := fun _ => Except.error "db-down",
    complete := fun _ => Except.error "gen-down" }

/-- Environment in which search succeeds with zero hits and the lookup
query raises (the empty IN list is a SQL syntax error). -/
def envEmptyHits : RagEnv :=
  { search := fun _ _ => Except.ok [],
    runQuery := fun _ => Except.error "syntax-error",
    complete := fun _ => Except.ok "fallback-resp" }

/-- Environment in which search returns one unresolvable hit and the
lookup returns no rows. -/
def envMissing : RagEnv :=
  { search := fun _ _ => Except.ok [exampleHit9],
    runQuery := fun _ => Except.ok [],
    complete := fun _ => Except.ok "resp" }

/-- A generation oracle that always raises. -/
def completeFail : String → Except String String := fun _ => Except.error "gen-down"

theorem facetConditions_eq (field : String) (vs : List String) :
    facetConditions field vs = if vs.isEmpty then [] else [facetPredicate field vs] := by
  match vs with
  | [] => rfl
  | [v] => simp [facetConditions, facetPredicate]
  | a :: b :: tl => simp [facetConditions, facetPredicate]

/-- C1: FilterBuilder — a facet with zero selections contributes no
predicate; one selected value contributes a single equals predicate;
several contribute an or of equals; if both facets contributed the result
is the and of both, if exactly one contributed it is that facet's
predicate unwrapped, and if neither contributed the filter is absent. -/
theorem buildSearchFilter_spec (sd st : List String) :
    (facetConditions "department" [] = [] ∧ facetConditions "document_type" [] = []) ∧
    (∀ f v, facetConditions f [v] = [SearchFilter.eq f v]) ∧
    (∀ f vs, 2 ≤ vs.length →
      facetConditions f vs = [SearchFilter.or (vs.map (fun v => SearchFilter.eq f v))]) ∧
    (sd = [] → st = [] → buildSearchFilter sd st = none) ∧
    (sd ≠ [] → st = [] → buildSearchFilter sd st = some (facetPredicate "department" sd)) ∧
    (sd = [] → st ≠ [] → buildSearchFilter sd st = some (facetPredicate "document_type" st)) ∧
    (sd ≠ [] → st ≠ [] → buildSearchFilter sd st =
      some (SearchFilter.and
        [facetPredicate "department" sd, facetPredicate "document_type" st])) := by
  refine ⟨⟨rfl, rfl⟩, ?_, ?_, ?_, ?_, ?_, ?_⟩
  · intro f v
    simp [facetConditions_eq, facetPredicate]
  · intro f vs hlen
    match vs with
    | [] => simp at hlen
    | [v] => simp at hlen
    | a :: b :: tl => simp [facetConditions_eq, facetPredicate]
  · intro hsd hst
    subst hsd; subst hst; rfl
  · intro hsd hst
    subst hst
    obtain ⟨a, tl, rfl⟩ := List.exists_cons_of_ne_nil hsd
    simp [buildSearchFilter, filter_conditions, facetConditions_eq]
  · intro hsd hst
    subst hsd
    obtain ⟨b, tl, rfl⟩ := List.exists_cons_of_ne_nil hst
    simp [buildSearchFilter, filter_conditions, facetConditions_eq]
  · intro hsd hst
    obtain ⟨a, tla, rfl⟩ := List.exists_cons_of_ne_nil hsd
    obtain ⟨b, tlb, rfl⟩ := List.exists_cons_of_ne_nil hst
    simp [buildSearchFilter, filter_conditions, facetConditions_eq]

theorem buildSearchFilter_spec_witness :
    buildSearchFilter [] [] = none ∧
    buildSearchFilter ["営業部"] [] = some (SearchFilter.eq "department" "営業部") ∧
    buildSearchFilter ["A", "B"] [] =
      some (SearchFilter.or
        [SearchFilter.eq "department" "A", SearchFilter.eq "department" "B"]) ∧
    buildSearchFilter ["A"] ["FAQ"] =
      some (SearchFilter.and
        [SearchFilter.eq "department" "A", SearchFilter.eq "document_type" "FAQ"]) := by
  refine ⟨?_, ?_, ?_, ?_⟩
  · exact (buildSearchFilter_spec [] []).2.2.2.1 rfl rfl
  · exact (buildSearchFilter_spec ["営業部"] []).2.2.2.2.1 (by simp) rfl
  · exact (buildSearchFilter_spec ["A", "B"] []).2.2.2.2.1 (by simp) rfl
  · exact (buildSearchFilter_spec ["A"] ["FAQ"]).2.2.2.2.2.2 (by simp) (by simp)

theorem assembleAux_mem_fst (original_docs : String → Option OriginalDoc)
    (results : List SearchResult) (seen : List String) (id : String) :
    id ∈ (assembleAux original_docs results seen).map Prod.fst ↔
      (id ∉ seen ∧ (∃ r ∈ results, r.document_id = id) ∧ (original_docs id).isSome) := by
  induction results generalizing seen with
  | nil => simp [assembleAux]
  | cons r rest ih =>
    by_cases hseen : r.document_id ∈ seen
    · rw [assembleAux, if_pos hseen, ih]
      constructor
      · rintro ⟨hns, ⟨x, hx, hxid⟩, hsome⟩
        exact ⟨hns, ⟨x, List.mem_cons_of_mem r hx, hxid⟩, hsome⟩
      · rintro ⟨hns, ⟨x, hx, hxid⟩, hsome⟩
        rcases List.mem_cons.mp hx with hx | hx
        · subst hx; subst hxid; exact absurd hseen hns
        · exact ⟨hns, ⟨x, hx, hxid⟩, hsome⟩
    · rw [assembleAux, if_neg hseen]
      match hdoc : original_docs r.document_id with
      | some d =>
        rw [List.map_cons, List.mem_cons, ih]
        constructor
        · rintro (hid | ⟨hns, ⟨x, hx, hxid⟩, hsome⟩)
          · subst hid
            exact ⟨hseen, ⟨r, List.mem_cons_self r rest, rfl⟩, by simp [hdoc]⟩
          · refine ⟨fun hc => hns (List.mem_cons_of_mem _ hc),
              ⟨x, List.mem_cons_of_mem r hx, hxid⟩, hsome⟩
        · rintro ⟨hns, ⟨x, hx, hxid⟩, hsome⟩
          by_cases hid : id = r.document_id
          · exact Or.inl hid
          · rcases List.mem_cons.mp hx with hx | hx
            · subst hx; exact absurd hxid.symm hid
            · refine Or.inr ⟨?_, ⟨x, hx, hxid⟩, hsome⟩
              intro hc
              rcases List.mem_cons.mp hc with hc | hc
              · exact hid hc
              · exact hns hc
      | none =>
        rw [ih]
        constructor
        · rintro ⟨hns, ⟨x, hx, hxid⟩, hsome⟩
          exact ⟨hns, ⟨x, List.mem_cons_of_mem r hx, hxid⟩, hsome⟩
        · rintro ⟨hns, ⟨x, hx, hxid⟩, hsome⟩
          rcases List.mem_cons.mp hx with hx | hx
          · exfalso
            subst hx; subst hxid
            simp [hdoc] at hsome
          · exact ⟨hns, ⟨x, hx, hxid⟩, hsome⟩

theorem assembleAux_fst_nodup (original_docs : String → Option OriginalDoc)
    (results : List SearchResult) (seen : List String) :
    ((assembleAux original_docs results seen).map Prod.fst).Nodup := by
  induction results generalizing seen with
  | nil => simp [assembleAux]
  | cons r rest ih =>
    by_cases hseen : r.document_id ∈ seen
    · rw [assembleAux, if_pos hseen]; exact ih seen
    · rw [assembleAux, if_neg hseen]
      match hdoc : original_docs r.document_id with
      | some d =>
        simp only [List.map_cons, List.nodup_cons]
        refine ⟨?_, ih (r.document_id :: seen)⟩
        intro hc
        exact ((assembleAux_mem_fst original_docs rest
          (r.document_id :: seen) r.document_id).mp hc).1 (List.mem_cons_self _ _)
      | none => exact ih seen

theorem assembleAux_fst_order (original_docs : String → Option OriginalDoc)
    (results : List SearchResult) (seen : List String) :
    (assembleAux original_docs results seen).map Prod.fst =
      dedupFirstAux seen
        ((results.filter (fun r => (original_docs r.document_id).isSome)).map
          (fun r => r.document_id)) := by
  induction results generalizing seen with
  | nil => simp [assembleAux, dedupFirstAux]
  | cons r rest ih =>
    by_cases hseen : r.document_id ∈ seen
    · rw [assembleAux, if_pos hseen]
      match hdoc : original_docs r.document_id with
      | some d =>
        rw [List.filter_cons_of_pos (by simp [hdoc]), List.map_cons]
        simp only [dedupFirstAux]
        rw [if_pos hseen]
        exact ih seen
      | none =>
        rw [List.filter_cons_of_neg (by simp [hdoc])]
        exact ih seen
    · rw [assembleAux, if_neg hseen]
      match hdoc : original_docs r.document_id with
      | some d =>
        rw [List.filter_cons_of_pos (by simp [hdoc]), List.map_cons]
        simp only [dedupFirstAux]
        rw [if_neg hseen]
        exact congrArg _ (ih (r.document_id :: seen))
      | none =>
        rw [List.filter_cons_of_neg (by simp [hdoc])]
        exact ih seen

theorem assembleAux_find (original_docs : String → Option OriginalDoc)
    (results : List SearchResult) (seen : List String) :
    ∀ p ∈ assembleAux original_docs results seen,
      ∃ r, results.find? (fun x => x.document_id == p.1) = some r ∧
        ∃ d, original_docs p.1 = some d ∧ p.2 = mkRelevantDoc d r := by
  induction results generalizing seen with
  | nil => simp [assembleAux]
  | cons r rest ih =>
    intro p hp
    have hfst : p.1 ∈ (assembleAux original_docs (r :: rest) seen).map Prod.fst :=
      List.mem_map_of_mem Prod.fst hp
    have hprops := (assembleAux_mem_fst original_docs (r :: rest) seen p.1).mp hfst
    by_cases hseen : r.document_id ∈ seen
    · rw [assembleAux, if_pos hseen] at hp
      have hne : p.1 ≠ r.document_id := fun hc => hprops.1 (hc ▸ hseen)
      obtain ⟨x, hfind, hd⟩ := ih seen p hp
      exact ⟨x, by rw [List.find?_cons_of_neg _ (by simpa using hne.symm)]; exact hfind, hd⟩
    · rw [assembleAux, if_neg hseen] at hp
      match hdoc : original_docs r.document_id with
      | some d =>
        rw [hdoc] at hp
        rcases List.mem_cons.mp hp with hp | hp
        · subst hp
          exact ⟨r, by rw [List.find?_cons_of_pos _ (by simp)], d, hdoc, rfl⟩
        · have hfst2 : p.1 ∈ (assembleAux original_docs rest
              (r.document_id :: seen)).map Prod.fst := List.mem_map_of_mem Prod.fst hp
          have hne : p.1 ≠ r.document_id := fun hc =>
            ((assembleAux_mem_fst original_docs rest (r.document_id :: seen) p.1).mp
              hfst2).1 (by rw [hc]; exact List.mem_cons_self _ _)
          obtain ⟨x, hfind, hd⟩ := ih (r.document_id :: seen) p hp
          exact ⟨x, by rw [List.find?_cons_of_neg _ (by simpa using hne.symm)]; exact hfind, hd⟩
      | none =>
        rw [hdoc] at hp
        have hne : p.1 ≠ r.document_id := by
          intro hc
          have := hprops.2.2
          rw [hc, hdoc] at this
          simp at this
        obtain ⟨x, hfind, hd⟩ := ih seen p hp
        exact ⟨x, by rw [List.find?_cons_of_neg _ (by simpa using hne.symm)]; exact hfind, hd⟩

/-- C2: ContextAssembler — the emitted relevantDocs list has exactly one
entry per document identifier that appears among the hits and resolves;
when an identifier appears in several hits only the first hit's data is
emitted; emission order is order of first appearance among hits; no two
emitted entries share an identifier. -/
theorem assembleRelevantDocs_spec (results : List SearchResult)
    (original_docs : String → Option OriginalDoc) :
    ((assembleRelevantDocs results original_docs).map Prod.fst).Nodup ∧
    (∀ id, id ∈ (assembleRelevantDocs results original_docs).map Prod.fst ↔
      ((∃ r ∈ results, r.document_id = id) ∧ (original_docs id).isSome)) ∧
    (assembleRelevantDocs results original_docs).map Prod.fst =
      dedupFirst ((results.filter (fun r => (original_docs r.document_id).isSome)).map
        (fun r => r.document_id)) ∧
    (∀ p ∈ assembleRelevantDocs results original_docs,
      ∃ r, results.find? (fun x => x.document_id == p.1) = some r ∧
        ∃ d, original_docs p.1 = some d ∧ p.2 = mkRelevantDoc d r) := by
  refine ⟨assembleAux_fst_nodup original_docs results [], ?_, ?_, ?_⟩
  · intro id
    rw [assembleRelevantDocs, assembleAux_mem_fst]
    simp
  · exact assembleAux_fst_order original_docs results []
  · exact assembleAux_find original_docs results []

theorem assembleRelevantDocs_spec_witness :
    ((assembleRelevantDocs exampleHits exampleDocs).map Prod.fst).Nodup ∧
    (assembleRelevantDocs exampleHits exampleDocs).map Prod.fst = ["1", "2"] ∧
    (∃ r, exampleHits.find? (fun x => x.document_id == "1") = some r ∧
      ∃ d, exampleDocs "1" = some d ∧
        (("1" : String),
          ({ title := "T1", content := "C1", chunked_content := "a",
             document_type := "t", department := "d" } : RelevantDoc)).2 =
          mkRelevantDoc d r) := by
  refine ⟨(assembleRelevantDocs_spec exampleHits exampleDocs).1, by decide, ?_⟩
  exact (assembleRelevantDocs_spec exampleHits exampleDocs).2.2.2
    ("1", { title := "T1", content := "C1", chunked_content := "a",
            document_type := "t", department := "d" }) (by decide)

theorem string_append_empty (s : String) : s ++ "" = s := by
  cases s with
  | mk data => simp [String.instAppend, String.append]

theorem contextOf_foldl (docs : List RelevantDoc) (acc : String) :
    docs.foldl (fun a doc => a ++ docBlock doc) acc = acc ++ concatBlocks docs := by
  induction docs generalizing acc with
  | nil => simp [concatBlocks, string_append_empty]
  | cons doc docs ih =>
    rw [List.foldl_cons, ih, concatBlocks, String.append_assoc]

theorem contextOf_eq (docs : List RelevantDoc) :
    contextOf docs = "参考文書:\n" ++ concatBlocks docs :=
  contextOf_foldl docs _

/-- C8: every emitted RelevantDocument's context block embeds the hit's
chunk content together with title, document type and department — the
block is a function of those four fields only, never of the full content —
while the RelevantDocument record itself retains the full canonical
content; the context text is the header followed by the blocks in order. -/
theorem contextChunk_spec (results : List SearchResult)
    (original_docs : String → Option OriginalDoc) :
    (∀ p ∈ assembleRelevantDocs results original_docs,
      (∃ d, original_docs p.1 = some d ∧ p.2.content = d.content) ∧
      (∃ r, results.find? (fun x => x.document_id == p.1) = some r ∧
        p.2.chunked_content = r.chunked_content) ∧
      docBlock p.2 = docBlockOf p.2.title p.2.document_type p.2.department p.2.chunked_content ∧
      (∀ c, docBlock { p.2 with content := c } = docBlock p.2)) ∧
    contextOf ((assembleRelevantDocs results original_docs).map Prod.snd) =
      "参考文書:\n" ++
        concatBlocks ((assembleRelevantDocs results original_docs).map Prod.snd) := by
  constructor
  · intro p hp
    obtain ⟨r, hfind, d, hdoc, hmk⟩ := assembleAux_find original_docs results [] p hp
    refine ⟨⟨d, hdoc, by rw [hmk]; rfl⟩, ⟨r, hfind, by rw [hmk]; rfl⟩, rfl, ?_⟩
    intro c
    rfl
  · exact contextOf_eq _

theorem contextChunk_spec_witness :
    (∃ d, exampleDocs "1" = some d ∧
      ({ title := "T1", content := "C1", chunked_content := "a",
         document_type := "t", department := "d" } : RelevantDoc).content = d.content) ∧
    (∃ r, exampleHits.find? (fun x => x.document_id == "1") = some r ∧
      ({ title := "T1", content := "C1", chunked_content := "a",
         document_type := "t", department := "d" } : RelevantDoc).chunked_content =
        r.chunked_content) := by
  have h := (contextChunk_spec exampleHits exampleDocs).1
    ("1", { title := "T1", content := "C1", chunked_content := "a",
            document_type := "t", department := "d" }) (by decide)
  exact ⟨h.1, h.2.1⟩

/-- C5: a hit whose identifier is absent from the resolved mapping is
silently excluded — it yields no RelevantDocument and no context block,
the remaining hits are still processed, when nothing resolves the result
is empty with a header-only context, and the pipeline still reaches the
grounded generation without surfacing any error. -/
theorem missingResolution_spec (r : SearchResult) (rest results : List SearchResult)
    (original_docs : String → Option OriginalDoc) :
    (original_docs r.document_id = none →
      assembleRelevantDocs (r :: rest) original_docs =
        assembleRelevantDocs rest original_docs) ∧
    (∀ p ∈ assembleRelevantDocs results original_docs, (original_docs p.1).isSome) ∧
    ((∀ x ∈ results, original_docs x.document_id = none) →
      assembleRelevantDocs results original_docs = [] ∧
      contextOf ((assembleRelevantDocs results original_docs).map Prod.snd) =
        "参考文書:\n") ∧
    (∀ (env : RagEnv) (sd st : List String) (prompt : String) (s : ChatState)
        (results2 : List SearchResult) (rows : List DocRow) (response : String),
      env.search prompt (buildSearchFilter sd st) = Except.ok results2 →
      env.runQuery
        (original_docs_query ((results2.map (fun r => r.document_id)).eraseDups)) =
        Except.ok rows →
      env.complete
        (prompt_template
          (contextOf ((assembleRelevantDocs results2 (rowsToDocs rows)).map Prod.snd))
          prompt) = Except.ok response →
      (ragProcessPrompt env sd st prompt s).shownErrors = [] ∧
      (ragProcessPrompt env sd st prompt s).fallbackNotice = false) := by
  refine ⟨?_, ?_, ?_, ?_⟩
  · intro hdoc
    rw [assembleRelevantDocs, assembleRelevantDocs, assembleAux,
      if_neg (List.not_mem_nil r.document_id), hdoc]
  · intro p hp
    have hfst : p.1 ∈ (assembleRelevantDocs results original_docs).map Prod.fst :=
      List.mem_map_of_mem Prod.fst hp
    exact ((assembleAux_mem_fst original_docs results [] p.1).mp hfst).2.2
  · intro hall
    have hempty : assembleRelevantDocs results original_docs = [] := by
      by_contra hne
      obtain ⟨p, hp⟩ := List.exists_mem_of_ne_nil _ hne
      have hfst : p.1 ∈ (assembleRelevantDocs results original_docs).map Prod.fst :=
        List.mem_map_of_mem Prod.fst hp
      have hm := (assembleAux_mem_fst original_docs results [] p.1).mp hfst
      obtain ⟨x, hx, hxid⟩ := hm.2.1
      have hnone := hall x hx
      rw [hxid] at hnone
      rw [hnone] at hm
      simp at hm
    rw [hempty]
    exact ⟨rfl, rfl⟩
  · intro env sd st prompt s results2 rows response hsearch hquery hcomplete
    simp only [ragProcessPrompt, hsearch, hquery, hcomplete]
    exact ⟨trivial, trivial⟩

theorem missingResolution_spec_witness :
    assembleRelevantDocs [exampleHit9] noDocs = [] ∧
    contextOf ((assembleRelevantDocs [exampleHit9] noDocs).map Prod.snd) =
      "参考文書:\n" ∧
    (ragProcessPrompt envMissing [] [] "q" { messages := [], chat_history := "" }).shownErrors =
      [] := by
  have h := missingResolution_spec exampleHit9 [] [exampleHit9] noDocs
  have hall : ∀ x ∈ [exampleHit9], noDocs x.document_id = none := by
    intro x hx
    rfl
  refine ⟨(h.2.2.1 hall).1, (h.2.2.1 hall).2, ?_⟩
  exact (h.2.2.2 envMissing [] [] "q" { messages := [], chat_history := "" }
    [exampleHit9] [] "resp" rfl rfl rfl).1

theorem ragFallback_completePrompts (env : RagEnv) (prompt : String) (s1 : ChatState)
    (prior : List String) (e : String) :
    (ragFallback env prompt s1 prior e).completePrompts = prior ++ [fallbackPrompt prompt] := by
  rw [ragFallback]
  cases hc : env.complete (fallbackPrompt prompt) with
  | error e2 => rfl
  | ok resp => rfl

/-- C6: on every successful RAG query the first prompt passed to
generation is exactly the fixed grounding instruction, the assembled
context text, and the literal user question, and it is the same whatever
the prior conversation state — no prior-turn history enters the grounded
prompt. -/
theorem groundedPrompt_spec (env : RagEnv) (sd st : List String) (prompt : String)
    (s t : ChatState) (results : List SearchResult) (rows : List DocRow)
    (hsearch : env.search prompt (buildSearchFilter sd st) = Except.ok results)
    (hquery : env.runQuery
      (original_docs_query ((results.map (fun r => r.document_id)).eraseDups)) =
      Except.ok rows) :
    (ragProcessPrompt env sd st prompt s).completePrompts.head? =
      some (groundingInstruction ++
        contextOf ((assembleRelevantDocs results (rowsToDocs rows)).map Prod.snd) ++
        questionLabel ++ prompt ++ closingIndent) ∧
    (ragProcessPrompt env sd st prompt s).completePrompts =
      (ragProcessPrompt env sd st prompt t).completePrompts := by
  simp only [ragProcessPrompt, hsearch, hquery]
  cases hc : env.complete
      (prompt_template
        (contextOf ((assembleRelevantDocs results (rowsToDocs rows)).map Prod.snd))
        prompt) with
  | error e =>
    rw [ragFallback_completePrompts, ragFallback_completePrompts]
    exact ⟨rfl, rfl⟩
  | ok response => exact ⟨rfl, rfl⟩

theorem groundedPrompt_spec_witness :
    (ragProcessPrompt envAllOk [] [] "q" { messages := [], chat_history := "" }).completePrompts.head? =
      some (groundingInstruction ++
        contextOf ((assembleRelevantDocs exampleHits (rowsToDocs exampleRows)).map Prod.snd) ++
        questionLabel ++ "q" ++ closingIndent) ∧
    (ragProcessPrompt envAllOk [] [] "q" { messages := [], chat_history := "" }).completePrompts =
      (ragProcessPrompt envAllOk [] [] "q"
        { messages := [{ role := "user", content := "old", relevant_docs := none }],
          chat_history := "User: old\n" }).completePrompts := by
  exact groundedPrompt_spec envAllOk [] [] "q"
    { messages := [], chat_history := "" }
    { messages := [{ role := "user", content := "old", relevant_docs := none }],
      chat_history := "User: old\n" }
    exampleHits exampleRows rfl rfl

/-- C4: when the search step raises, generation is invoked with exactly
the fixed fallback instruction followed by the raw user question (no
context blocks), the access error is surfaced, the ungrounded-answer
notice is shown, and the appended assistant turn carries no relevant_docs. -/
theorem searchFailure_fallback_spec (env : RagEnv) (sd st : List String)
    (prompt : String) (s : ChatState) (e resp : String)
    (hsearch : env.search prompt (buildSearchFilter sd st) = Except.error e)
    (hgen : env.complete (fallbackPrompt prompt) = Except.ok resp) :
    ragProcessPrompt env sd st prompt s =
      { state := appendAssistantTurn (appendUserTurn s prompt) resp none,
        completePrompts := [fallbackPrompt prompt],
        shownErrors := [searchAccessError, e],
        fallbackNotice := true } ∧
    fallbackPrompt prompt =
      "以下の質問に日本語で回答してください。社内文書にアクセスできないため、一般的な知識に基づいて回答します。\n\n質問: " ++
        prompt ∧
    (appendAssistantTurn (appendUserTurn s prompt) resp none).messages =
      (appendUserTurn s prompt).messages ++
        [{ role := "assistant", content := resp, relevant_docs := none }] := by
  refine ⟨?_, rfl, rfl⟩
  simp only [ragProcessPrompt, hsearch, ragFallback, hgen]
  rfl

theorem searchFailure_fallback_spec_witness :
    ragProcessPrompt envSearchFails [] [] "q" { messages := [], chat_history := "" } =
      { state := appendAssistantTurn
          (appendUserTurn { messages := [], chat_history := "" } "q") "fallback-resp" none,
        completePrompts := [fallbackPrompt "q"],
        shownErrors := [searchAccessError, "search-down"],
        fallbackNotice := true } ∧
    fallbackPrompt "q" =
      "以下の質問に日本語で回答してください。社内文書にアクセスできないため、一般的な知識に基づいて回答します。\n\n質問: " ++
        "q" := by
  have h := searchFailure_fallback_spec envSearchFails [] [] "q"
    { messages := [], chat_history := "" } "search-down" "fallback-resp" rfl rfl
  exact ⟨h.1, h.2.1⟩

/-- C7: when search succeeds with zero hits, the canonical lookup query is
built with an empty IN list; if executing that malformed query raises, the
pipeline lands in the fallback handler and the only generation call is the
ungrounded fallback prompt — no grounded answer with an empty context is
produced. -/
theorem emptyHits_fallback_spec (env : RagEnv) (sd st : List String)
    (prompt : String) (s : ChatState) (e : String)
    (hsearch : env.search prompt (buildSearchFilter sd st) = Except.ok [])
    (hquery : env.runQuery (original_docs_query []) = Except.error e) :
    original_docs_query [] =
      "\n                    SELECT document_id, title, content, document_type, department\n                    FROM snow_retail_documents\n                    WHERE document_id IN ()\n                " ∧
    ragProcessPrompt env sd st prompt s =
      ragFallback env prompt (appendUserTurn s prompt) [] e ∧
    (ragProcessPrompt env sd st prompt s).completePrompts = [fallbackPrompt prompt] := by
  have hq3 : env.runQuery (original_docs_query (([] : List String).eraseDups)) =
      Except.error e := hquery
  have hpipe : ragProcessPrompt env sd st prompt s =
      ragFallback env prompt (appendUserTurn s prompt) [] e := by
    simp only [ragProcessPrompt, hsearch, List.map_nil, hq3]
  refine ⟨rfl, hpipe, ?_⟩
  rw [hpipe, ragFallback_completePrompts]
  rfl

theorem emptyHits_fallback_spec_witness :
    original_docs_query [] =
      "\n                    SELECT document_id, title, content, document_type, department\n                    FROM snow_retail_documents\n                    WHERE document_id IN ()\n                " ∧
    (ragProcessPrompt envEmptyHits [] [] "q" { messages := [], chat_history := "" }).completePrompts =
      [fallbackPrompt "q"] := by
  have h := emptyHits_fallback_spec envEmptyHits [] [] "q"
    { messages := [], chat_history := "" } "syntax-error" rfl rfl
  exact ⟨h.1, h.2.2⟩

/-- C3 counterexample: a concrete run in which the grounded generation
call raises, yet an assistant turn is appended and the history text grows:
the raise is caught by the same handler as a search failure, the fallback
generation runs automatically and its answer is stored. -/
theorem groundedFailure_counterexample :
    (ragProcessPrompt envGroundedFails [] [] "q"
        { messages := [], chat_history := "" }).state.messages =
      [{ role := "user", content := "q", relevant_docs := none },
       { role := "assistant", content := "fallback-resp", relevant_docs := none }] ∧
    (ragProcessPrompt envGroundedFails [] [] "q"
        { messages := [], chat_history := "" }).state.chat_history =
      "User: q\nAI: fallback-resp\n" ∧
    envGroundedFails.complete
      (prompt_template
        (contextOf ((assembleRelevantDocs exampleHits (rowsToDocs exampleRows)).map
          Prod.snd)) "q") = Except.error "gen-down" ∧
    (ragProcessPrompt envGroundedFails [] [] "q"
        { messages := [], chat_history := "" }).completePrompts.length = 2 ∧
    (ragProcessPrompt envGroundedFails [] [] "q"
        { messages := [], chat_history := "" }).shownErrors =
      [searchAccessError, "gen-down"] := by
  exact ⟨rfl, rfl, rfl, rfl, rfl⟩

/-- C3 (amended): in the plain-chat path and in the RAG fallback path a
generation failure surfaces an error and appends nothing, leaving the
history at exactly the user turn; in the grounded RAG path a generation
failure is caught by the search-fallback handler, so the fallback
generation is automatically invoked with the ungrounded prompt (appending
its answer without relevant_docs on success, appending nothing if it too
fails). -/
theorem generationFailure_amended_spec :
    (∀ (complete : String → Except String String) (prompt : String) (s : ChatState)
        (e : String),
      complete ((appendUserTurn s prompt).chat_history ++ "AI: ") = Except.error e →
      (simpleProcessPrompt complete prompt s).state = appendUserTurn s prompt ∧
      (simpleProcessPrompt complete prompt s).shownErrors = [generationErrorText e]) ∧
    (∀ (env : RagEnv) (sd st : List String) (prompt : String) (s : ChatState)
        (e1 e2 : String),
      env.search prompt (buildSearchFilter sd st) = Except.error e1 →
      env.complete (fallbackPrompt prompt) = Except.error e2 →
      (ragProcessPrompt env sd st prompt s).state = appendUserTurn s prompt ∧
      (ragProcessPrompt env sd st prompt s).shownErrors =
        [searchAccessError, e1, generationErrorText e2, e2]) ∧
    (∀ (env : RagEnv) (sd st : List String) (prompt : String) (s : ChatState)
        (results : List SearchResult) (rows : List DocRow) (e : String),
      env.search prompt (buildSearchFilter sd st) = Except.ok results →
      env.runQuery
        (original_docs_query ((results.map (fun r => r.document_id)).eraseDups)) =
        Except.ok rows →
      env.complete
        (prompt_template
          (contextOf ((assembleRelevantDocs results (rowsToDocs rows)).map Prod.snd))
          prompt) = Except.error e →
      ragProcessPrompt env sd st prompt s =
        ragFallback env prompt (appendUserTurn s prompt)
          [prompt_template
            (contextOf ((assembleRelevantDocs results (rowsToDocs rows)).map Prod.snd))
            prompt] e) := by
  refine ⟨?_, ?_, ?_⟩
  · intro complete prompt s e h
    simp only [simpleProcessPrompt, h]
    exact ⟨by trivial, by trivial⟩
  · intro env sd st prompt s e1 e2 hsearch hgen
    simp only [ragProcessPrompt, hsearch, ragFallback, hgen]
    exact ⟨by trivial, by trivial⟩
  · intro env sd st prompt s results rows e hsearch hquery hcomplete
    simp only [ragProcessPrompt, hsearch, hquery, hcomplete]

theorem generationFailure_amended_witness :
    ((simpleProcessPrompt completeFail "q" { messages := [], chat_history := "" }).state =
        appendUserTurn { messages := [], chat_history := "" } "q" ∧
      (simpleProcessPrompt completeFail "q"
          { messages := [], chat_history := "" }).shownErrors =
        [generationErrorText "gen-down"]) ∧
    ((ragProcessPrompt envAllDown [] [] "q" { messages := [], chat_history := "" }).state =
        appendUserTurn { messages := [], chat_history := "" } "q" ∧
      (ragProcessPrompt envAllDown [] [] "q"
          { messages := [], chat_history := "" }).shownErrors =
        [searchAccessError, "search-down", generationErrorText "gen-down", "gen-down"]) ∧
    (ragProcessPrompt envGroundedFails [] [] "q" { messages := [], chat_history := "" } =
      ragFallback envGroundedFails "q"
        (appendUserTurn { messages := [], chat_history := "" } "q")
        [prompt_template
          (contextOf ((assembleRelevantDocs exampleHits (rowsToDocs exampleRows)).map
            Prod.snd)) "q"] "gen-down") := by
  refine ⟨?_, ?_, ?_⟩
  · exact generationFailure_amended_spec.1 completeFail "q"
      { messages := [], chat_history := "" } "gen-down" rfl
  · exact generationFailure_amended_spec.2.1 envAllDown [] [] "q"
      { messages := [], chat_history := "" } "search-down" "gen-down" rfl rfl
  · exact generationFailure_amended_spec.2.2 envGroundedFails [] [] "q"
      { messages := [], chat_history := "" } exampleHits exampleRows "gen-down"
      rfl rfl rfl

/-- C9: for each surface independently, the clear action empties the
stored turn sequence and resets the derived running-history text, leaving
the other surface untouched — whatever state the appends had produced. -/
theorem clearHistory_spec (s : SessionState) :
    (clearSimpleHistory s).simple.messages = [] ∧
    (clearSimpleHistory s).simple.chat_history = "" ∧
    (clearSimpleHistory s).rag = s.rag ∧
    (clearRagHistory s).rag.messages = [] ∧
    (clearRagHistory s).rag.chat_history = "" ∧
    (clearRagHistory s).simple = s.simple :=
  ⟨rfl, rfl, rfl, rfl, rfl, rfl⟩

/-- C10: whenever the facet distinct-value listing raises, both facet
value lists become empty and the non-blocking warning is shown; with no
selectable values the built filter is absent, so the search runs
unrestricted and the session continues. -/
theorem facetCatalog_degradation_spec (deptQuery typeQuery : Except String (List String)) :
    ((∃ e, deptQuery = Except.error e) ∨ (∃ e, typeQuery = Except.error e) →
      loadFacetLists deptQuery typeQuery = ([], [], true)) ∧
    buildSearchFilter [] [] = none := by
  constructor
  · rintro (⟨e, rfl⟩ | ⟨e, he⟩)
    · rfl
    · subst he
      cases deptQuery with
      | error e2 => rfl
      | ok l => rfl
  · rfl

theorem facetCatalog_degradation_spec_witness :
    loadFacetLists (Except.error "table absent") (Except.ok ["FAQ"]) = ([], [], true) ∧
    loadFacetLists (Except.ok ["A"]) (Except.error "table absent") = ([], [], true) :=
  ⟨(facetCatalog_degradation_spec (Except.error "table absent") (Except.ok ["FAQ"])).1
      (Or.inl ⟨"table absent", rfl⟩),
   (facetCatalog_degradation_spec (Except.ok ["A"]) (Except.error "table absent")).1
      (Or.inr ⟨"table absent", rfl⟩)⟩

end SnowRetail
